import Mathlib

/-!
Verification development for the ECG reader service (src/ecg.py).

The file shallowly embeds the core inference-to-annotation pipeline:
the model manager `load_model`, the classifier `analyze_ecg_image`
(its post-forward-pass arithmetic: softmax, argmax, confidence),
the annotator `mark_ecg_image`, the explanation lookup
`get_explanation`, and the `analyze` route.

External libraries (torch, timm, cv2, PIL) are modelled as oracles:
structures of uninterpreted functions passed as parameters.  Python
exceptions raised by library calls are modelled with `Except`; the
Python `try`/`except` blocks in the source become matches on those
`Except` values.  The process-wide globals `MODEL`, `LABEL_TO_ID`,
`ID_TO_LABEL` become an explicit `GlobalState` record threaded
through the functions that read or write them, and assignments to
the globals made before an exception escapes are reflected in the
state the embedding returns on the error path, exactly as Python
leaves them.
-/

namespace ECGReader

/-! ## Model manager: `load_model` (src/ecg.py lines 22-45) -/

/-- The process-wide globals `MODEL`, `LABEL_TO_ID`, `ID_TO_LABEL`
(src/ecg.py lines 22-24).  `none` is Python `None`.  The id-to-label
mapping is a dictionary from integer class ids to label strings,
modelled as `Nat → Option String` (a missing key is `none`). -/
structure GlobalState (Model LabelMap : Type) where
  MODEL : Option Model
  LABEL_TO_ID : Option LabelMap
  ID_TO_LABEL : Option (Nat → Option String)

/-- A deserialized checkpoint dictionary.  Each field is an entry of
the Python dict; `none` models a missing key, so that the subscript
lookups `checkpoint[...]` in `load_model` can raise `KeyError`. -/
structure Checkpoint (StateDict LabelMap : Type) where
  model_state_dict : Option StateDict
  label_to_id : Option LabelMap
  id_to_label : Option (Nat → Option String)

/-- Oracle for the torch/timm calls made by `load_model`.
`torchLoad` is `torch.load(model_path, map_location=DEVICE)` and may
fail (missing file, corrupt pickle); `createModel` is the fresh
`timm.create_model(..., num_classes=4)` instance; `loadStateDict` is
`model.load_state_dict(sd)` and may fail (weight shape mismatch),
returning the model object with weights installed on success;
`toDevice` and `evalMode` are `.to(DEVICE)` and `.eval()`. -/
structure TorchEnv (Model StateDict LabelMap : Type) where
  torchLoad : String → Except String (Checkpoint StateDict LabelMap)
  createModel : Model
  loadStateDict : Model → StateDict → Except String Model
  toDevice : Model → Model
  evalMode : Model → Model

variable {Model StateDict LabelMap : Type}

/-- Embedding of `load_model` (src/ecg.py lines 27-45).  Returns the state of the
globals after the call, the Python return value (`some model` on
success, `none` for the `return None` of the `except` branch), and
the list of paths read from disk during the call.

Python semantics kept by the embedding: assignments to the global
`MODEL` happen in program order inside the `try` block, so when a
later statement raises, the `except` branch (which only prints and
returns `None`, resetting nothing) leaves the already-made
assignments in place. -/
def load_model (env : TorchEnv Model StateDict LabelMap)
    (s : GlobalState Model LabelMap) (model_path : String) :
    GlobalState Model LabelMap × Option Model × List String :=
  match s.MODEL with
  | some m => (s, some m, [])
  | none =>
    match env.torchLoad model_path with
    | .error _ => (s, none, [model_path])
    | .ok checkpoint =>
      let m0 := env.createModel
      let s1 : GlobalState Model LabelMap := { s with MODEL := some m0 }
      match checkpoint.model_state_dict with
      | none => (s1, none, [model_path])
      | some sd =>
        match env.loadStateDict m0 sd with
        | .error _ => (s1, none, [model_path])
        | .ok m1 =>
          let m2 := env.evalMode (env.toDevice m1)
          let s2 : GlobalState Model LabelMap := { s1 with MODEL := some m2 }
          match checkpoint.label_to_id with
          | none => (s2, none, [model_path])
          | some l2i =>
            let s3 : GlobalState Model LabelMap := { s2 with LABEL_TO_ID := some l2i }
            match checkpoint.id_to_label with
            | none => (s3, none, [model_path])
            | some i2l =>
              ({ s3 with ID_TO_LABEL := some i2l }, some m2, [model_path])

/-- When a model is already cached, `load_model` returns it with the
state untouched and reads nothing from disk. -/
theorem load_model_cached (env : TorchEnv Model StateDict LabelMap)
    (s : GlobalState Model LabelMap) (p : String) (m : Model)
    (h : s.MODEL = some m) : load_model env s p = (s, some m, []) := by
  unfold load_model
  rw [h]

/-- When `load_model` returns a model, the resulting state caches
exactly that model. -/
theorem load_model_success_state (env : TorchEnv Model StateDict LabelMap)
    (s : GlobalState Model LabelMap) (p : String) (m : Model)
    (h : (load_model env s p).2.1 = some m) :
    (load_model env s p).1.MODEL = some m := by
  cases hM : s.MODEL with
  | some m0 => simp [load_model, hM] at h ⊢; exact h
  | none =>
    simp only [load_model, hM] at h ⊢
    cases hL : env.torchLoad p with
    | error e => simp [hL] at h
    | ok ckpt =>
      simp only [hL] at h ⊢
      cases hsd : ckpt.model_state_dict with
      | none => simp [hsd] at h
      | some sd =>
        simp only [hsd] at h ⊢
        cases hld : env.loadStateDict env.createModel sd with
        | error e => simp [hld] at h
        | ok m1 =>
          simp only [hld] at h ⊢
          cases hl2i : ckpt.label_to_id with
          | none => simp [hl2i] at h
          | some l2i =>
            simp only [hl2i] at h ⊢
            cases hi2l : ckpt.id_to_label with
            | none => simp [hi2l] at h
            | some i2l => simp only [hi2l] at h ⊢; simpa using h

/-! Concrete torch oracles on small carrier types (`Model := Nat`,
`StateDict := Unit`, `LabelMap := Unit`), used to run `load_model`
on concrete inputs. -/

/-- A checkpoint that loads cleanly: every key present, weights
install without error (`loadStateDict` maps model `m` to `m + 1`, so
a freshly created model `0` becomes the loaded model `1`). -/
def torchEnvOK : TorchEnv Nat Unit Unit where
  torchLoad := fun _ => .ok
    { model_state_dict := some ()
      label_to_id := some ()
      id_to_label := some (fun i => if i = 0 then some "Normal_ECG" else none) }
  createModel := 0
  loadStateDict := fun m _ => .ok (m + 1)
  toDevice := id
  evalMode := id

/-- A checkpoint whose pickle loads but whose weights do not fit the
architecture: `load_state_dict` raises a size-mismatch error. -/
def torchEnvShapeMismatch : TorchEnv Nat Unit Unit where
  torchLoad := fun _ => .ok
    { model_state_dict := some ()
      label_to_id := some ()
      id_to_label := some (fun _ => none) }
  createModel := 0
  loadStateDict := fun _ _ => .error "size mismatch for head.weight"
  toDevice := id
  evalMode := id

/-- A filesystem with no checkpoint: `torch.load` raises on every
path. -/
def torchEnvMissing : TorchEnv Nat Unit Unit where
  torchLoad := fun _ => .error "FileNotFoundError"
  createModel := 0
  loadStateDict := fun m _ => .ok m
  toDevice := id
  evalMode := id

/-- The globals as they are at process start (lines 22-24): nothing
loaded. -/
def emptyState : GlobalState Nat Unit :=
  { MODEL := none, LABEL_TO_ID := none, ID_TO_LABEL := none }

/-- A state in which a model (the value `7`) is already cached. -/
def cachedState : GlobalState Nat Unit :=
  { MODEL := some 7, LABEL_TO_ID := some (), ID_TO_LABEL := some (fun _ => none) }

/-- Claim C1 (code bug): `load_model` is supposed to leave the
process-wide state fully "not loaded" on any failure, but when
`torch.load` succeeds and a later statement of the `try` block
raises (weight shape mismatch here; a missing label-map key behaves
the same), the global `MODEL` has already been assigned the freshly
created model and the `except` branch never resets it: the failed
call returns `None` yet leaves `MODEL` set with both label maps
unset, and a subsequent call returns that partially-initialized
model from cache instead of retrying. -/
theorem claim_C1_partial_state_on_failed_load :
    (load_model torchEnvShapeMismatch emptyState "trained_ecg_model.pth").2.1 = none ∧
    (load_model torchEnvShapeMismatch emptyState "trained_ecg_model.pth").1.MODEL = some 0 ∧
    (load_model torchEnvShapeMismatch emptyState "trained_ecg_model.pth").1.LABEL_TO_ID = none ∧
    (load_model torchEnvShapeMismatch emptyState "trained_ecg_model.pth").1.ID_TO_LABEL = none ∧
    load_model torchEnvShapeMismatch
        (load_model torchEnvShapeMismatch emptyState "trained_ecg_model.pth").1
        "trained_ecg_model.pth"
      = ((load_model torchEnvShapeMismatch emptyState "trained_ecg_model.pth").1, some 0, []) :=
  ⟨rfl, rfl, rfl, rfl, rfl⟩

/-- Claim C6: calling `load_model` twice with the same checkpoint
path yields the same model identity: whenever the first call
produced a model `m`, the second call returns exactly that cached
`m`, leaves the state unchanged, and reads nothing from disk. -/
theorem claim_C6_load_model_idempotent (env : TorchEnv Model StateDict LabelMap)
    (s : GlobalState Model LabelMap) (p : String) (m : Model)
    (h : (load_model env s p).2.1 = some m) :
    load_model env (load_model env s p).1 p = ((load_model env s p).1, some m, []) :=
  load_model_cached env _ p m (load_model_success_state env s p m h)

/-- Witness for C6: a successful first load from the empty state
caches model `1`; the second call returns it unchanged with no disk
read. -/
theorem claim_C6_witness :
    (load_model torchEnvOK emptyState "trained_ecg_model.pth").2.1 = some 1 ∧
    load_model torchEnvOK (load_model torchEnvOK emptyState "trained_ecg_model.pth").1
        "trained_ecg_model.pth"
      = ((load_model torchEnvOK emptyState "trained_ecg_model.pth").1, some 1, []) :=
  ⟨rfl, claim_C6_load_model_idempotent torchEnvOK emptyState "trained_ecg_model.pth" 1 rfl⟩

/-- Claim C10: once a model is cached, `load_model` ignores its path
argument entirely: for any path it returns the cached instance with
the state unchanged and no disk read, and two calls with different
paths (even a nonexistent one) return identical results — the cache
is not keyed by path. -/
theorem claim_C10_cache_ignores_path (env : TorchEnv Model StateDict LabelMap)
    (s : GlobalState Model LabelMap) (p q : String) (m : Model)
    (h : s.MODEL = some m) :
    load_model env s p = (s, some m, []) ∧ load_model env s p = load_model env s q := by
  refine ⟨load_model_cached env s p m h, ?_⟩
  rw [load_model_cached env s p m h, load_model_cached env s q m h]

/-- Witness for C10: with model `7` cached, loading from a different
path and from a missing path both return the cached model `7`
without touching the filesystem. -/
theorem claim_C10_witness :
    cachedState.MODEL = some 7 ∧
    (load_model torchEnvMissing cachedState "other_model.pth" = (cachedState, some 7, []) ∧
     load_model torchEnvMissing cachedState "other_model.pth"
       = load_model torchEnvMissing cachedState "no_such_file.pth") :=
  ⟨rfl, claim_C10_cache_ignores_path torchEnvMissing cachedState
    "other_model.pth" "no_such_file.pth" 7 rfl⟩

/-! ## Annotation: `mark_ecg_image` (src/ecg.py lines 72-108) -/

/-- A line segment returned by `cv2.HoughLinesP`: the unpacked
`x1, y1, x2, y2` endpoints of `line[0]`. -/
def Segment : Type := (Nat × Nat) × (Nat × Nat)

/-- Oracle for the cv2 calls made by `mark_ecg_image`.  Detection
(`cvtColorGray` for `cv2.cvtColor(..., COLOR_RGB2GRAY)`, `canny`,
`findContours` for `cv2.findContours(..., RETR_EXTERNAL,
CHAIN_APPROX_SIMPLE)`, `contourArea`, `boundingRect`, `houghLinesP`)
is uninterpreted; the in-place drawing primitives `rectangle` and
`line` are functions from the destination image to the image after
the draw, taking the two corner/end points, the RGB color, and the
thickness.  `houghLinesP` takes the edge image, rho, theta, the vote
threshold, `minLineLength` and `maxLineGap`, and returns `none` when
no line is found (cv2 returns `None`, not an empty array). -/
structure CvEnv (Image Contour : Type) where
  cvtColorGray : Image → Image
  canny : Image → Nat → Nat → Image
  findContours : Image → List Contour
  contourArea : Contour → ℚ
  boundingRect : Contour → Nat × Nat × Nat × Nat
  houghLinesP : Image → ℚ → ℝ → Nat → Nat → Nat → Option (List Segment)
  rectangle : Image → Nat × Nat → Nat × Nat → Nat × Nat × Nat → Nat → Image
  line : Image → Nat × Nat → Nat × Nat → Nat × Nat × Nat → Nat → Image

variable {Image Contour : Type}

/-- Embedding of `mark_ecg_image` (src/ecg.py lines 72-108).  The Python function
copies the input (`marked_img = img_array.copy()`), computes the
shared edge map, dispatches on the prediction string, draws on the
copy only, and returns it.  The embedding returns the pair (input
buffer after the call, returned marked buffer): every draw is
applied to the copy, whose initial pixel data is the input. -/
noncomputable def mark_ecg_image (cv : CvEnv Image Contour)
    (img_array : Image) (prediction : String) : Image × Image :=
  let marked_img := img_array
  let gray := cv.cvtColorGray img_array
  let edges := cv.canny gray 50 150
  if prediction = "Abnormal_Heartbeat" then
    let contours := cv.findContours edges
    (img_array, contours.foldl (fun acc contour =>
      let area := cv.contourArea contour
      if 30 < area ∧ area < 300 then
        let r := cv.boundingRect contour
        cv.rectangle acc (r.1, r.2.1) (r.1 + r.2.2.1, r.2.1 + r.2.2.2) (255, 0, 0) 2
      else acc) marked_img)
  else if prediction = "Myocardial_Infarction" then
    match cv.houghLinesP edges 1 (Real.pi / 180) 25 10 15 with
    | none => (img_array, marked_img)
    | some lines =>
      (img_array, (lines.take 12).foldl (fun acc l =>
        cv.line acc l.1 l.2 (0, 255, 0) 3) marked_img)
  else if prediction = "Normal_ECG" then
    match cv.houghLinesP edges 1 (Real.pi / 180) 50 20 5 with
    | none => (img_array, marked_img)
    | some lines =>
      (img_array, (lines.take 10).foldl (fun acc l =>
        cv.line acc l.1 l.2 (0, 255, 0) 2) marked_img)
  else if prediction = "Post_MI_History" then
    let contours := cv.findContours edges
    (img_array, contours.foldl (fun acc contour =>
      let area := cv.contourArea contour
      if 25 < area ∧ area < 250 then
        let r := cv.boundingRect contour
        cv.rectangle acc (r.1, r.2.1) (r.1 + r.2.2.1, r.2.1 + r.2.2.2) (255, 0, 255) 2
      else acc) marked_img)
  else (img_array, marked_img)

/-- Claim C4: annotation never mutates its input image: for every
image and every label, the input buffer holds its original pixel
data, untouched, after the call; the marking is applied to the copy
that is returned. -/
theorem claim_C4_mark_preserves_input (cv : CvEnv Image Contour)
    (img_array : Image) (prediction : String) :
    (mark_ecg_image cv img_array prediction).1 = img_array := by
  simp only [mark_ecg_image]
  split
  · rfl
  · split
    · cases cv.houghLinesP (cv.canny (cv.cvtColorGray img_array) 50 150)
        1 (Real.pi / 180) 25 10 15 <;> rfl
    · split
      · cases cv.houghLinesP (cv.canny (cv.cvtColorGray img_array) 50 150)
          1 (Real.pi / 180) 50 20 5 <;> rfl
      · split <;> rfl

/-- Claim C5: for a label outside the closed set of four known
labels, annotation performs no drawing at all: the returned marked
image is the unmarked copy, pixel-identical to the original (and no
cv2 failure path is reachable — the unknown label simply falls
through every branch). -/
theorem claim_C5_mark_unknown_label_noop (cv : CvEnv Image Contour)
    (img_array : Image) (prediction : String)
    (h : prediction ∉ ["Abnormal_Heartbeat", "Myocardial_Infarction",
      "Normal_ECG", "Post_MI_History"]) :
    mark_ecg_image cv img_array prediction = (img_array, img_array) := by
  simp only [List.mem_cons, List.not_mem_nil, or_false, not_or] at h
  obtain ⟨h1, h2, h3, h4⟩ := h
  simp only [mark_ecg_image]
  rw [if_neg h1, if_neg h2, if_neg h3, if_neg h4]

/-- Claim C7: the two line-marking branches.  With label
`Myocardial_Infarction` the marked image is the copy with the
segments found by probabilistic Hough detection at vote threshold
25, minimum length 10, maximum gap 15 drawn — at most the first 12
of them — as green (0,255,0) lines of thickness 3; with label
`Normal_ECG` the detector runs at threshold 50, minimum length 20,
maximum gap 5 and at most the first 10 segments are drawn as green
lines of thickness 2.  In both branches, when the detector returns
no lines the result is the unmarked copy of the original. -/
theorem claim_C7_line_branches (cv : CvEnv Image Contour) (img_array : Image) :
    ((mark_ecg_image cv img_array "Myocardial_Infarction").2 =
      (match cv.houghLinesP (cv.canny (cv.cvtColorGray img_array) 50 150)
          1 (Real.pi / 180) 25 10 15 with
       | none => img_array
       | some lines => (lines.take 12).foldl (fun acc l =>
           cv.line acc l.1 l.2 (0, 255, 0) 3) img_array))
  ∧ ((mark_ecg_image cv img_array "Normal_ECG").2 =
      (match cv.houghLinesP (cv.canny (cv.cvtColorGray img_array) 50 150)
          1 (Real.pi / 180) 50 20 5 with
       | none => img_array
       | some lines => (lines.take 10).foldl (fun acc l =>
           cv.line acc l.1 l.2 (0, 255, 0) 2) img_array)) := by
  constructor
  · simp only [mark_ecg_image]
    rw [if_pos trivial]
    cases cv.houghLinesP (cv.canny (cv.cvtColorGray img_array) 50 150)
      1 (Real.pi / 180) 25 10 15 <;> rfl
  · simp only [mark_ecg_image]
    rw [if_pos trivial]
    cases cv.houghLinesP (cv.canny (cv.cvtColorGray img_array) 50 150)
      1 (Real.pi / 180) 50 20 5 <;> rfl

/-- Claim C8: the two contour-marking branches share, with every
other branch, the edge map computed by Canny with thresholds 50/150
on the grayscale of the original.  With label `Abnormal_Heartbeat`
every externally-retrieved contour whose area lies strictly between
30 and 300 gets a red (255,0,0) bounding rectangle drawn — no limit
on how many; with label `Post_MI_History` the area filter is
strictly between 25 and 250 and the rectangles are magenta
(255,0,255). -/
theorem claim_C8_contour_branches (cv : CvEnv Image Contour) (img_array : Image) :
    ((mark_ecg_image cv img_array "Abnormal_Heartbeat").2 =
      (cv.findContours (cv.canny (cv.cvtColorGray img_array) 50 150)).foldl
        (fun acc contour =>
          if 30 < cv.contourArea contour ∧ cv.contourArea contour < 300 then
            cv.rectangle acc ((cv.boundingRect contour).1, (cv.boundingRect contour).2.1)
              ((cv.boundingRect contour).1 + (cv.boundingRect contour).2.2.1,
               (cv.boundingRect contour).2.1 + (cv.boundingRect contour).2.2.2)
              (255, 0, 0) 2
          else acc) img_array)
  ∧ ((mark_ecg_image cv img_array "Post_MI_History").2 =
      (cv.findContours (cv.canny (cv.cvtColorGray img_array) 50 150)).foldl
        (fun acc contour =>
          if 25 < cv.contourArea contour ∧ cv.contourArea contour < 250 then
            cv.rectangle acc ((cv.boundingRect contour).1, (cv.boundingRect contour).2.1)
              ((cv.boundingRect contour).1 + (cv.boundingRect contour).2.2.1,
               (cv.boundingRect contour).2.1 + (cv.boundingRect contour).2.2.2)
              (255, 0, 255) 2
          else acc) img_array) := by
  constructor
  · simp only [mark_ecg_image]
    rw [if_pos trivial]
  · simp only [mark_ecg_image]
    rw [if_neg (by decide), if_neg (by decide), if_neg (by decide), if_pos trivial]

/-- A concrete cv2 oracle on `Image := Nat`, `Contour := Unit`:
every draw bumps the destination buffer, no contours, no lines. -/
def cvEnvConst : CvEnv Nat Unit where
  cvtColorGray := id
  canny := fun img _ _ => img
  findContours := fun _ => []
  contourArea := fun _ => 0
  boundingRect := fun _ => (0, 0, 0, 0)
  houghLinesP := fun _ _ _ _ _ _ => none
  rectangle := fun img _ _ _ _ => img + 1
  line := fun img _ _ _ _ => img + 1

/-- Witness for C5: the label `Sinus_Arrhythmia` is not one of the
four known labels, and annotating image `5` with it returns the
untouched image both as the preserved input and as the marked
copy. -/
theorem claim_C5_witness :
    "Sinus_Arrhythmia" ∉ ["Abnormal_Heartbeat", "Myocardial_Infarction",
      "Normal_ECG", "Post_MI_History"] ∧
    mark_ecg_image cvEnvConst 5 "Sinus_Arrhythmia" = (5, 5) :=
  ⟨by decide, claim_C5_mark_unknown_label_noop cvEnvConst 5 "Sinus_Arrhythmia" (by decide)⟩

/-! ## Classification: `analyze_ecg_image` (src/ecg.py lines 47-70)

The forward pass `MODEL(image_tensor)` produces a vector of 4 raw
logits; the source then takes `torch.softmax(output, dim=1)[0]`,
`output.argmax().item()`, `probabilities[predicted_class_idx]` and
`ID_TO_LABEL[predicted_class_idx]`.  The post-forward arithmetic is
embedded exactly over the reals. -/

/-- The `torch.softmax` transform over the 4 logits: exponentiate and normalize
by the sum of exponentials. -/
noncomputable def softmax4 (output : Fin 4 → ℝ) : Fin 4 → ℝ :=
  fun i => Real.exp (output i) / ∑ j : Fin 4, Real.exp (output j)

/-- The `torch.argmax` rule over 4 entries: the first index whose entry is
greater than or equal to every entry. -/
noncomputable def argmax4 (f : Fin 4 → ℝ) : Fin 4 :=
  if ∀ j, f j ≤ f 0 then 0
  else if ∀ j, f j ≤ f 1 then 1
  else if ∀ j, f j ≤ f 2 then 2
  else 3

/-- The maximum entry of a 4-entry vector (`max(probabilities)`). -/
noncomputable def maxEntry4 (p : Fin 4 → ℝ) : ℝ :=
  max (max (max (p 0) (p 1)) (p 2)) (p 3)

/-- The classification arithmetic of `analyze_ecg_image` (lines
62-67) applied to the raw logits of the forward pass: returns
`predicted_class_idx`, `confidence_score` and `all_probabilities`
exactly as the source computes them — the index is the argmax of
the raw logits, the probabilities are the softmax of the logits,
and the confidence is the probability at that index. -/
noncomputable def classifyLogits (output : Fin 4 → ℝ) : Fin 4 × ℝ × (Fin 4 → ℝ) :=
  let probabilities := softmax4 output
  let predicted_class_idx := argmax4 output
  let confidence_score := probabilities predicted_class_idx
  (predicted_class_idx, confidence_score, probabilities)

/-- The sum of exponentials of the logits is positive. -/
theorem sum_exp_pos (output : Fin 4 → ℝ) :
    0 < ∑ j : Fin 4, Real.exp (output j) :=
  Finset.sum_pos (fun j _ => Real.exp_pos (output j)) Finset.univ_nonempty

/-- Softmax preserves every comparison between entries: it is a
monotone reparametrization of the logits. -/
theorem softmax4_le_iff (output : Fin 4 → ℝ) (i j : Fin 4) :
    softmax4 output i ≤ softmax4 output j ↔ output i ≤ output j := by
  unfold softmax4
  rw [div_le_div_iff_of_pos_right (sum_exp_pos output), Real.exp_le_exp]

/-- The index `argmax4` picks has an entry dominating every entry. -/
theorem argmax4_le (f : Fin 4 → ℝ) (j : Fin 4) : f j ≤ f (argmax4 f) := by
  unfold argmax4
  split
  · next h => exact h j
  · split
    · next h => exact h j
    · split
      · next h => exact h j
      · next h0 h1 h2 =>
        obtain ⟨i, hi⟩ := Finite.exists_max f
        fin_cases i
        · exact absurd (fun k => hi k) h0
        · exact absurd (fun k => hi k) h1
        · exact absurd (fun k => hi k) h2
        · exact hi j

/-- Two vectors whose entries compare identically have the same
argmax. -/
theorem argmax4_congr (f g : Fin 4 → ℝ)
    (h : ∀ i j, f i ≤ f j ↔ g i ≤ g j) : argmax4 f = argmax4 g := by
  unfold argmax4
  have e0 : (∀ j, f j ≤ f 0) ↔ (∀ j, g j ≤ g 0) := forall_congr' fun j => h j 0
  have e1 : (∀ j, f j ≤ f 1) ↔ (∀ j, g j ≤ g 1) := forall_congr' fun j => h j 1
  have e2 : (∀ j, f j ≤ f 2) ↔ (∀ j, g j ≤ g 2) := forall_congr' fun j => h j 2
  simp only [e0, e1, e2]

/-- Every entry is below `maxEntry4`. -/
theorem le_maxEntry4 (p : Fin 4 → ℝ) (j : Fin 4) : p j ≤ maxEntry4 p := by
  unfold maxEntry4
  fin_cases j
  · exact le_max_of_le_left (le_max_of_le_left (le_max_left _ _))
  · exact le_max_of_le_left (le_max_of_le_left (le_max_right _ _))
  · exact le_max_of_le_left (le_max_right _ _)
  · exact le_max_right _ _

/-- An entry dominating all entries equals `maxEntry4`. -/
theorem maxEntry4_eq_of_forall_le (p : Fin 4 → ℝ) (i : Fin 4)
    (h : ∀ j, p j ≤ p i) : maxEntry4 p = p i :=
  le_antisymm (max_le (max_le (max_le (h 0) (h 1)) (h 2)) (h 3)) (le_maxEntry4 p i)

/-- Claim C3: the confidence returned by the classification step
equals the maximum entry of the returned 4-entry probability
vector, and the predicted index — computed by the source as the
argmax of the raw logits — is also the argmax of the post-softmax
probability vector, so the returned label is the class at the
argmax of the probabilities. -/
theorem claim_C3_confidence_is_max (output : Fin 4 → ℝ) :
    (classifyLogits output).2.1 = maxEntry4 (classifyLogits output).2.2 ∧
    argmax4 (classifyLogits output).2.2 = (classifyLogits output).1 := by
  have hmono : ∀ i j, softmax4 output i ≤ softmax4 output j ↔ output i ≤ output j :=
    softmax4_le_iff output
  have hdom : ∀ j, softmax4 output j ≤ softmax4 output (argmax4 output) :=
    fun j => (hmono j (argmax4 output)).mpr (argmax4_le output j)
  constructor
  · exact (maxEntry4_eq_of_forall_le (softmax4 output) (argmax4 output) hdom).symm
  · exact argmax4_congr (softmax4 output) output fun i j => hmono i j

/-! ## Pipeline entry point: `analyze` (src/ecg.py lines 1055-1098) -/

/-- Oracle for the PIL/numpy/torch calls of the pipeline.
`imageOpen` is `Image.open(BytesIO(image_bytes))` and may raise on
undecodable bytes; `convertRGB` is the conversion `image.convert` to RGB;
`toArray` is `np.array(...)`; `preprocess` is the composed
transform `Resize(384) ∘ ToTensor ∘ Normalize` plus `unsqueeze` and
device placement; `forward` is the forward pass `MODEL(tensor)` and
may raise at runtime; `toBase64` is `image_to_base64`. -/
structure PipeEnv (Model PILImage Tensor Image Contour Blob : Type) where
  cv : CvEnv Image Contour
  imageOpen : Blob → Except String PILImage
  convertRGB : PILImage → PILImage
  toArray : PILImage → Image
  preprocess : PILImage → Tensor
  forward : Model → Tensor → Except String (Fin 4 → ℝ)
  toBase64 : Image → String

variable {PILImage Tensor Blob : Type}

/-- Embedding of `analyze_ecg_image` (src/ecg.py lines 47-70), given the globals.
When `MODEL` is `None` the call `MODEL(image_tensor)` raises a
`TypeError`; when `ID_TO_LABEL` is `None` the subscript raises; a
missing key in the id-to-label dict raises `KeyError`; a forward
pass failure propagates.  All of these surface as `Except.error`,
to be caught (if at all) by the caller. -/
noncomputable def analyze_ecg_image
    (env : PipeEnv Model PILImage Tensor Image Contour Blob)
    (s : GlobalState Model LabelMap) (image : PILImage) :
    Except String (String × ℝ × (Fin 4 → ℝ)) :=
  let image_tensor := env.preprocess (env.convertRGB image)
  match s.MODEL with
  | none => .error "TypeError: NoneType object is not callable"
  | some model =>
    match env.forward model image_tensor with
    | .error e => .error e
    | .ok output =>
      let probabilities := softmax4 output
      let predicted_class_idx := argmax4 output
      let confidence_score := probabilities predicted_class_idx
      match s.ID_TO_LABEL with
      | none => .error "TypeError: NoneType object is not subscriptable"
      | some id_to_label =>
        match id_to_label predicted_class_idx.val with
        | none => .error "KeyError"
        | some predicted_label => .ok (predicted_label, confidence_score, probabilities)

/-- A medical explanation record (`get_explanation`, src/ecg.py
lines 110-163). -/
structure Explanation where
  title : String
  severity : String
  icon : String
  findings : List String
  recommendation : String

/-- The `Normal_ECG` record, also the fallback of the dictionary
lookup `explanations.get` with the Normal_ECG record as default. -/
def normalExplanation : Explanation :=
  { title := "Normal ECG Pattern"
    severity := "normal"
    icon := "✓"
    findings := ["Regular rhythm with consistent intervals",
      "Normal P-QRS-T wave sequence",
      "Appropriate wave amplitudes",
      "No significant abnormalities detected"]
    recommendation := "Continue regular health check-ups and maintain a heart-healthy lifestyle." }

/-- Embedding of `get_explanation` (src/ecg.py lines 110-163): the static lookup
keyed by label, falling back to the `Normal_ECG` record for unknown
labels. -/
def get_explanation (prediction : String) : Explanation :=
  if prediction = "Abnormal_Heartbeat" then
    { title := "Abnormal Heartbeat Detected"
      severity := "warning"
      icon := "⚠️"
      findings := ["Irregular rhythm with inconsistent intervals",
        "Extra beats or premature contractions detected",
        "P, QRS, or T wave disruptions observed",
        "Non-standard electrical conduction patterns"]
      recommendation := "Consult with a cardiologist for further evaluation and possible rhythm monitoring." }
  else if prediction = "Myocardial_Infarction" then
    { title := "Myocardial Infarction Signs"
      severity := "critical"
      icon := "🚨"
      findings := ["ST-segment elevation indicating heart muscle damage",
        "Abnormal Q-waves suggesting tissue necrosis",
        "T-wave inversions indicating ischemia",
        "Altered ST and T segments detected"]
      recommendation := "IMMEDIATE medical attention required. Contact emergency services or go to the nearest ER." }
  else if prediction = "Normal_ECG" then normalExplanation
  else if prediction = "Post_MI_History" then
    { title := "Post-MI Changes Detected"
      severity := "monitor"
      icon := "📋"
      findings := ["Evidence of previous cardiac event",
        "Persistent ECG abnormalities from scar tissue",
        "Altered electrical conduction pathways",
        "Permanent changes from prior myocardial damage"]
      recommendation := "Regular follow-up with cardiologist. Continue prescribed medications and lifestyle modifications." }
  else normalExplanation

/-- The JSON object returned by the `/analyze` route.  An `Option`
field models presence or absence of the key in the returned JSON. -/
structure AnalyzeResponse where
  success : Bool
  error : Option String
  prediction : Option String
  confidence : Option ℝ
  probabilities : Option (Fin 4 → ℝ)
  original_image : Option String
  marked_image : Option String
  explanation : Option Explanation

/-- A failure response: success is false, error carries the message,
and no other field is present. -/
def failureResponse (msg : String) : AnalyzeResponse :=
  { success := false, error := some msg, prediction := none, confidence := none,
    probabilities := none, original_image := none, marked_image := none,
    explanation := none }

/-- The uploaded request: `request.files` may or may not carry the
`file` field. -/
structure AnalyzeRequest (Blob : Type) where
  file : Option Blob

/-- The body of the `try` block of the `analyze` route (src/ecg.py
lines 1057-1093): the not-loaded and missing-file guards return
failure JSON directly; the decode, inference and lookup steps may
raise, which the embedding surfaces as `Except.error`. -/
noncomputable def analyzeTry
    (env : PipeEnv Model PILImage Tensor Image Contour Blob)
    (s : GlobalState Model LabelMap) (req : AnalyzeRequest Blob) :
    Except String AnalyzeResponse :=
  match s.MODEL with
  | none => .ok (failureResponse "Model not loaded. Please ensure trained_ecg_model.pth is available.")
  | some _ =>
    match req.file with
    | none => .ok (failureResponse "No file uploaded")
    | some file =>
      match env.imageOpen file with
      | .error e => .error e
      | .ok image =>
        let img_array := env.toArray (env.convertRGB image)
        match analyze_ecg_image env s image with
        | .error e => .error e
        | .ok (prediction, confidence, probabilities) =>
          let marked_array := (mark_ecg_image env.cv img_array prediction).2
          let original_base64 := env.toBase64 img_array
          let marked_base64 := env.toBase64 marked_array
          let explanation := get_explanation prediction
          .ok { success := true, error := none, prediction := some prediction,
                confidence := some confidence, probabilities := some probabilities,
                original_image := some original_base64, marked_image := some marked_base64,
                explanation := some explanation }

/-- The `/analyze` route (src/ecg.py lines 1055-1098): the
`except Exception` handler turns any exception escaping the `try`
body into a failure response carrying the exception text. -/
noncomputable def analyze
    (env : PipeEnv Model PILImage Tensor Image Contour Blob)
    (s : GlobalState Model LabelMap) (req : AnalyzeRequest Blob) :
    AnalyzeResponse :=
  match analyzeTry env s req with
  | .ok r => r
  | .error e => failureResponse e

/-- Claim C2: invoking the pipeline before any successful model
load — the process-wide model state is "not loaded", i.e. `MODEL`
is `None` — yields the explicit not-loaded failure response: a
tagged failure with a descriptive message, not a crash and not a
default prediction. -/
theorem claim_C2_not_loaded_failure
    (env : PipeEnv Model PILImage Tensor Image Contour Blob)
    (s : GlobalState Model LabelMap) (req : AnalyzeRequest Blob)
    (h : s.MODEL = none) :
    analyze env s req =
      failureResponse "Model not loaded. Please ensure trained_ecg_model.pth is available." := by
  unfold analyze analyzeTry
  rw [h]

/-- A concrete pipeline oracle over small carrier types, reusing
`cvEnvConst`: decoding always succeeds, the forward pass returns the
zero logit vector. -/
noncomputable def pipeEnvConst : PipeEnv Nat Unit Unit Nat Unit Unit where
  cv := cvEnvConst
  imageOpen := fun _ => .ok ()
  convertRGB := id
  toArray := fun _ => 5
  preprocess := fun _ => ()
  forward := fun _ _ => .ok (fun _ => 0)
  toBase64 := fun img => toString img

/-- Witness for C2: at process start nothing is loaded, and a
request (here one with no file attached — the model check fires
first) gets the not-loaded failure response. -/
theorem claim_C2_witness :
    emptyState.MODEL = none ∧
    analyze pipeEnvConst emptyState { file := none } =
      failureResponse "Model not loaded. Please ensure trained_ecg_model.pth is available." :=
  ⟨rfl, claim_C2_not_loaded_failure pipeEnvConst emptyState { file := none } rfl⟩

/-- The propagation policy of the spec: a response either carries
the success flag with every output field present and no error, or
the failure flag with an error message and no output field at
all. -/
def allOrNothingResponse (r : AnalyzeResponse) : Prop :=
  (r.success = true ∧ r.error = none ∧ r.prediction.isSome = true ∧
   r.confidence.isSome = true ∧ r.probabilities.isSome = true ∧
   r.original_image.isSome = true ∧ r.marked_image.isSome = true ∧
   r.explanation.isSome = true) ∨
  (r.success = false ∧ r.error.isSome = true ∧ r.prediction = none ∧
   r.confidence = none ∧ r.probabilities = none ∧ r.original_image = none ∧
   r.marked_image = none ∧ r.explanation = none)

/-- A failure response satisfies the policy (right disjunct). -/
theorem failureResponse_allOrNothing (msg : String) :
    allOrNothingResponse (failureResponse msg) :=
  Or.inr ⟨rfl, rfl, rfl, rfl, rfl, rfl, rfl, rfl⟩

/-- Every `Except.ok` outcome of the `try` body is either a failure
response or the full success record. -/
theorem analyzeTry_ok_shape
    (env : PipeEnv Model PILImage Tensor Image Contour Blob)
    (s : GlobalState Model LabelMap) (req : AnalyzeRequest Blob)
    (r : AnalyzeResponse) (h : analyzeTry env s req = .ok r) :
    allOrNothingResponse r := by
  unfold analyzeTry at h
  cases hM : s.MODEL with
  | none =>
    simp only [hM, Except.ok.injEq] at h
    rw [← h]; exact failureResponse_allOrNothing _
  | some m =>
    simp only [hM] at h
    cases hF : req.file with
    | none =>
      simp only [hF, Except.ok.injEq] at h
      rw [← h]; exact failureResponse_allOrNothing _
    | some file =>
      simp only [hF] at h
      cases hI : env.imageOpen file with
      | error e => simp only [hI] at h; simp at h
      | ok image =>
        simp only [hI] at h
        cases hA : analyze_ecg_image env s image with
        | error e => simp only [hA] at h; simp at h
        | ok val =>
          obtain ⟨prediction, confidence, probabilities⟩ := val
          simp only [hA, Except.ok.injEq] at h
          rw [← h]
          exact Or.inl ⟨rfl, rfl, rfl, rfl, rfl, rfl, rfl, rfl⟩

/-- Claim C9: for every request, every internal failure is
recovered at the pipeline boundary: the route always returns a
structured response, and that response never carries partial
results — either the success flag with all of prediction,
confidence, probabilities, original image, marked image and
explanation present, or the failure flag with an error message and
none of the output fields. -/
theorem claim_C9_no_partial_results
    (env : PipeEnv Model PILImage Tensor Image Contour Blob)
    (s : GlobalState Model LabelMap) (req : AnalyzeRequest Blob) :
    allOrNothingResponse (analyze env s req) := by
  unfold analyze
  cases hT : analyzeTry env s req with
  | error e => exact failureResponse_allOrNothing e
  | ok r => exact analyzeTry_ok_shape env s req r hT

end ECGReader
